import Mathlib

/-!
Verification of the MARC viewer codec (`marcview.py`).

The byte buffers handled by `load_marc_file` are modelled as `String`s
(one `Char` per byte; all inputs of interest are ASCII, where Python's
`bytes` and `str` operations coincide character for character).  All
string primitives used by the source (`strip`, slicing, `in`,
`startswith`, `split`) are re-implemented structurally over `String.data`
so that every definition evaluates by kernel reduction.

Python exceptions are modelled by the inductive type `Marc.Exc`; a
computation that may raise is an `Except Exc` value.  The external
`pymarc` library calls (`parse_xml_to_array`, `parse_json_to_array`,
`MARCReader`, `TextReader`) are parameters of the pipeline, collected in
`Marc.Env`: each concrete instantiation used by a theorem documents the
library behaviour it models.
-/

/-- Decidable equality for `Except`, so that concrete runs of the
pipeline can be checked by `decide`. -/
instance {ε α : Type} [DecidableEq ε] [DecidableEq α] : DecidableEq (Except ε α)
  | .ok a, .ok b =>
      if h : a = b then .isTrue (h ▸ rfl) else .isFalse (fun hc => h (Except.ok.inj hc))
  | .error a, .error b =>
      if h : a = b then .isTrue (h ▸ rfl) else .isFalse (fun hc => h (Except.error.inj hc))
  | .ok _, .error _ => .isFalse (fun hc => Except.noConfusion hc)
  | .error _, .ok _ => .isFalse (fun hc => Except.noConfusion hc)

namespace Marc

/-- Python exception classes that occur in `marcview.py`:  the ones named
in its `except` clauses plus the ones its callees can raise.
`valueError` stands for `ValueError` and its subclass
`json.JSONDecodeError`; `saxException` for `xml.sax.SAXException` and its
subclass `SAXParseException`; none of these is a subclass of
`UnicodeDecodeError` or of `IOError`/`OSError`. -/
inductive Exc
  | stopIteration
  | typeError
  | keyError
  | attributeError
  | valueError
  | saxException
  | unicodeDecodeError
  | ioError
deriving DecidableEq, Repr

/-- Characters stripped by Python `strip()` on ASCII data:
space, tab, newline, carriage return, vertical tab, form feed. -/
def isPySpace (c : Char) : Bool :=
  c = ' ' || c = '\t' || c = '\n' || c = '\x0d' || c = '\x0b' || c = '\x0c'

/-- Python `s.strip()` (both ends) over the character list. -/
def pyStripList (l : List Char) : List Char :=
  ((l.dropWhile isPySpace).reverse.dropWhile isPySpace).reverse

/-- Python `content.strip()`. -/
def pyStrip (s : String) : String :=
  String.mk (pyStripList s.data)

/-- Python `content[:n]` (leading slice of at most `n` bytes). -/
def pyTake (s : String) (n : Nat) : String :=
  String.mk (s.data.take n)

/-- Python `b in content` for a single byte `b`. -/
def pyContains (s : String) (c : Char) : Bool :=
  s.data.contains c

/-- Python `s.startswith(p)`. -/
def pyStartsWith (s p : String) : Bool :=
  p.data.isPrefixOf s.data

/-- Python `f"{s:<4}"`: left-justify `s` in a field of width 4,
padding with spaces on the right (unchanged when already longer). -/
def ljust4 (s : String) : String :=
  s ++ String.mk (List.replicate (4 - s.data.length) ' ')

/-- Python `' '.join(items)`. -/
def joinSp : List String → String
  | [] => ""
  | [s] => s
  | s :: ss => s ++ " " ++ joinSp ss

/-- Splits a character list on every occurrence of the two-character
separator `"\n\n"`, leftmost-first, matching Python
`content_str.split('\n\n')`; `acc` holds the current piece reversed. -/
def splitBlankAux : List Char → List Char → List (List Char)
  | '\n' :: '\n' :: cs, acc => acc.reverse :: splitBlankAux cs []
  | c :: cs, acc => splitBlankAux cs (c :: acc)
  | [], acc => [acc.reverse]

/-- Python `content_str.strip().split('\n\n')` — the record blocks of a
mnemonic buffer (`marcview.py` lines 131-132 and 147). -/
def splitBlocks (s : String) : List String :=
  (splitBlankAux (pyStripList s.data) []).map String.mk

/-- A pymarc subfield as used by `parse_record`: `subfield.code` and
`subfield.value`. -/
structure Subfield where
  code : String
  value : String
deriving DecidableEq, Repr

/-- A pymarc field as used by `parse_record`: either a control field
(`is_control_field()` true, carrying `tag` and `data`) or a data field
(carrying `tag`, `indicators[0]`, `indicators[1]` and `subfields`). -/
inductive Field
  | control (tag : String) (data : String)
  | data (tag : String) (ind1 ind2 : String) (subfields : List Subfield)
deriving DecidableEq, Repr

/-- The tag of a field. -/
def Field.tag : Field → String
  | .control t _ => t
  | .data t _ _ _ => t

/-- pymarc `Field.value()`: the raw data of a control field, the
subfield values joined by spaces for a data field. -/
def Field.value : Field → String
  | .control _ d => d
  | .data _ _ _ subs => joinSp (subs.map Subfield.value)

/-- A pymarc record as used by `parse_record`: `record.get_fields()`
returns its fields in source order. -/
structure Record where
  fields : List Field
deriving DecidableEq, Repr

/-- pymarc `record[tag]` preceded by `tag in record`: the first field
with the given tag, if any. -/
def Record.findField (r : Record) (tag : String) : Option Field :=
  r.fields.find? (fun f => f.tag = tag)

/-- `is_marcxml` (`marcview.py` lines 106-109):
`content.strip().startswith(b'<?xml')`. -/
def is_marcxml (content : String) : Bool :=
  pyStartsWith (pyStrip content) "<?xml"

/-- `is_json` (`marcview.py` lines 111-114):
`content.strip().startswith(b'[') or content.strip().startswith(b'{')`. -/
def is_json (content : String) : Bool :=
  pyStartsWith (pyStrip content) "[" || pyStartsWith (pyStrip content) "\x7b"

/-- `is_mnemonic` (`marcview.py` lines 116-119):
`b'\n' in content and b'=' in content[:100]` — note: on the raw,
untrimmed buffer. -/
def is_mnemonic (content : String) : Bool :=
  pyContains content '\n' && pyContains (pyTake content 100) '='

/-- The format classification implicit in the `if`-chain of
`load_marc_file` (lines 84-93), in its priority order.  The chain has no
further branch: any buffer matching none of the three predicates falls
through to the binary `MARCReader` path. -/
inductive Format
  | xml
  | json
  | mnemonic
  | binary
deriving DecidableEq, Repr

/-- The sniffing order of `load_marc_file` (lines 84-93). -/
def classify (content : String) : Format :=
  if is_marcxml content then .xml
  else if is_json content then .json
  else if is_mnemonic content then .mnemonic
  else .binary

/-- One rendered field line of `parse_record` (lines 169-179):
control fields print `f"{field.tag}: {field.data}\n"`, data fields print
`f"{field.tag:<4} {field.indicators[0]}{field.indicators[1]} {subfields}\n"`
with the subfields joined by single spaces, each as
`f"{subfield.code} {subfield.value}"`. -/
def renderField : Field → String
  | .control tag d => tag ++ ": " ++ d ++ "\n"
  | .data tag i1 i2 subs =>
      ljust4 tag ++ " " ++ i1 ++ i2 ++ " " ++
        joinSp (subs.map (fun sf => sf.code ++ " " ++ sf.value)) ++ "\n"

/-- The `Record ID:` header line of `parse_record` (line 168):
`f"Record ID: {record['001'].value() if '001' in record else 'No ID'}\n"`. -/
def recordIdLine (r : Record) : String :=
  "Record ID: " ++
    (match r.findField "001" with
      | some f => f.value
      | none => "No ID") ++ "\n"

/-- The successful body of `parse_record` (lines 167-180) on an actual
pymarc record: the header line followed by one line per field in the
record's field order. -/
def renderRecord (r : Record) : String :=
  recordIdLine r ++ String.join (r.fields.map renderField)

/-- `parse_record` (lines 164-185) as the render loop sees it.  The
argument is `Option Record` because the mnemonic fallback path yields
`None` in place of records.  Evaluating `'001' in record` on `None`
raises `TypeError` (`argument of type NoneType is not iterable`), which
the handler — `except (KeyError, AttributeError)` — does not catch, so
it propagates.  On an actual record built by a decoder every accessor
used exists, so the body succeeds. -/
def parse_record : Option Record → Except Exc String
  | none => .error .typeError
  | some r => .ok (renderRecord r)

/-- The 40-character separator appended after each record
(line 98: `"\n" + "=" * 40 + "\n"`). -/
def sepLine : String :=
  String.mk (List.replicate 40 '=')

/-- The accumulation loop of `load_marc_file` (lines 95-98):
`record_output += self.parse_record(record)` then
`record_output += "\n" + "=" * 40 + "\n"`; an exception from
`parse_record` escapes the loop. -/
def renderAll : List (Option Record) → Except Exc String
  | [] => .ok ""
  | r :: rs =>
      match parse_record r with
      | .error e => .error e
      | .ok t =>
          match renderAll rs with
          | .error e => .error e
          | .ok rest => .ok (t ++ "\n" ++ sepLine ++ "\n" ++ rest)

/-- The behaviour of the external `pymarc` calls that `load_marc_file`
dispatches to.  Each component maps the raw buffer to the record list
the library produces, or to the exception it raises; `textReader` is
`none` when the optional `from pymarc import TextReader` failed
(lines 14-17), otherwise it is the per-block behaviour of
`next(TextReader(StringIO(block)))`. -/
structure Env where
  parseXmlToArray : String → Except Exc (List Record)
  parseJsonToArray : String → Except Exc (List Record)
  marcReaderList : String → Except Exc (List Record)
  textReader : Option (String → Except Exc Record)

/-- `parse_mnemonic_records_fallback` (lines 143-153): splits the
decoded text into blocks and appends `None` for every block (the
"custom parsing logic" placeholder never builds a record). -/
def parse_mnemonic_records_fallback (content : String) : List (Option Record) :=
  (splitBlocks content).map (fun _ => none)

/-- `parse_mnemonic_record` (lines 155-162) under a given environment:
with `TextReader` available it returns `next(TextReader(StringIO(record_data)))`,
propagating whatever that raises; without it, `None`. -/
def parse_mnemonic_record (env : Env) (record_data : String) : Except Exc (Option Record) :=
  match env.textReader with
  | some tr =>
      match tr record_data with
      | .ok r => .ok (some r)
      | .error e => .error e
  | none => .ok none

/-- The exceptions the per-block handler of `parse_mnemonic_records`
catches (line 138): `except (StopIteration, TypeError)`. -/
def caughtByMnemonic (e : Exc) : Bool :=
  e = .stopIteration || e = .typeError

/-- The block loop of `parse_mnemonic_records` (lines 132-141):
each block is parsed; `except (StopIteration, TypeError): pass` skips
the block; any other exception escapes the loop. -/
def mnemonicLoop (env : Env) : List String → Except Exc (List (Option Record))
  | [] => .ok []
  | b :: bs =>
      match parse_mnemonic_record env b with
      | .ok r =>
          match mnemonicLoop env bs with
          | .error e => .error e
          | .ok rest => .ok (r :: rest)
      | .error e =>
          if caughtByMnemonic e then mnemonicLoop env bs
          else .error e

/-- `parse_mnemonic_records` (lines 121-141): without `TextReader` it
returns the fallback's list of `None`s; otherwise it decodes (with
`errors='replace'`, so decoding never raises), splits the stripped text
on blank lines and runs the block loop. -/
def parse_mnemonic_records (env : Env) (content : String) : Except Exc (List (Option Record)) :=
  match env.textReader with
  | none => .ok (parse_mnemonic_records_fallback content)
  | some _ => mnemonicLoop env (splitBlocks content)

/-- The format dispatch of `load_marc_file` (lines 84-93): the records
produced by the decoder that the sniffing chain selects. -/
def decodeRecords (env : Env) (content : String) : Except Exc (List (Option Record)) :=
  if is_marcxml content then
    match env.parseXmlToArray content with
    | .ok rs => .ok (rs.map some)
    | .error e => .error e
  else if is_json content then
    match env.parseJsonToArray content with
    | .ok rs => .ok (rs.map some)
    | .error e => .error e
  else if is_mnemonic content then
    parse_mnemonic_records env content
  else
    match env.marcReaderList content with
    | .ok rs => .ok (rs.map some)
    | .error e => .error e

/-- The `try` body of `load_marc_file` (lines 76-99): decode, then
render every record with the separator after each. -/
def loadBody (env : Env) (content : String) : Except Exc String :=
  match decodeRecords env content with
  | .error e => .error e
  | .ok records => renderAll records

/-- The top-level error text set by the handler of `load_marc_file`
(lines 100-104); the model keeps the fixed lead of the f-string. -/
def topErrorText (_e : Exc) : String :=
  "Error reading MARC file: ..."

/-- The exceptions the top-level handler of `load_marc_file` catches
(line 100): `except (UnicodeDecodeError, IOError)`. -/
def caughtByLoad (e : Exc) : Bool :=
  e = .unicodeDecodeError || e = .ioError

/-- `load_marc_file` (lines 73-104) given the behaviour of the external
library calls: `.ok text` models the text placed into the viewer
(normal output, or the handler's error message); `.error e` models the
call aborting with the uncaught exception `e` and no output. -/
def load_marc_file (env : Env) (content : String) : Except Exc String :=
  match loadBody env content with
  | .ok t => .ok t
  | .error e => if caughtByLoad e then .ok (topErrorText e) else .error e

/-- Whether `pat` occurs as a contiguous substring of the character
list; used to show that an output text contains no inline error marker
(`parse_record`'s inline markers and the top-level message both begin
with `"Error"`, line 101 and line 182). -/
def listHasSub (pat : List Char) : List Char → Bool
  | [] => pat.isEmpty
  | c :: cs => pat.isPrefixOf (c :: cs) || listHasSub pat cs

/-- Whether `pat` occurs as a contiguous substring of `s`. -/
def hasSub (s pat : String) : Bool :=
  listHasSub pat.data s.data

/-- The data-field line exactly as the spec's words prescribe it (spec
section 4.6, quoted by the claim): the tag left-justified to width 4
immediately followed by the two indicator characters, then a space,
then the subfields joined by single spaces — with no other characters.
This definition follows the spec, not the source, and exists only to be
compared against `renderField`. -/
def specDataFieldLine (tag i1 i2 : String) (subs : List Subfield) : String :=
  ljust4 tag ++ i1 ++ i2 ++ " " ++ joinSp (subs.map (fun sf => sf.code ++ " " ++ sf.value))

/-- The record that pymarc's JSON decoder (spec section 4.4 field
mapping) produces for the document
`[\x7b"leader":"00123nam a2200061 a 4500","fields":[\x7b"001":"12345"\x7d,
\x7b"245":\x7b"ind1":"1","ind2":"0","subfields":[\x7b"a":"Title"\x7d]\x7d\x7d]\x7d]`:
a control field `001` with value `12345` and a data field `245` with
indicators `1`,`0` and one subfield `a` = `Title`, in source order. -/
def sampleRecord : Record :=
  ⟨[.control "001" "12345", .data "245" "1" "0" [⟨"a", "Title"⟩]]⟩

/-- The external behaviour of a standard `pymarc` installation:
`TextReader` is not importable (the `except ImportError` fallback at
lines 14-17 leaves it `None`), and `MARCReader` over an empty stream
yields no records (iteration stops at end of buffer).  The unused XML
and JSON components return empty lists. -/
def envDefault : Env :=
  ⟨fun _ => .ok [], fun _ => .ok [], fun _ => .ok [], none⟩

/-- External behaviour where `parse_json_to_array` raises
`json.JSONDecodeError` — a subclass of `ValueError`, of neither
`UnicodeDecodeError` nor `IOError` — on a syntactically invalid JSON
document (spec section 4.4: an invalid document fails the whole
decode). -/
def envJsonSyntaxError : Env :=
  ⟨fun _ => .ok [], fun _ => .error .valueError, fun _ => .ok [], none⟩

/-- External behaviour where reading the source through `MARCReader`
fails with `IOError`, the failure `load_marc_file`'s handler is written
for. -/
def envReadError : Env :=
  ⟨fun _ => .ok [], fun _ => .ok [], fun _ => .error .ioError, none⟩

/-- External behaviour where `parse_json_to_array` succeeds and yields
`sampleRecord` — the decode of the concrete JSON document of the
end-to-end scenario. -/
def envC4 : Env :=
  ⟨fun _ => .ok [], fun _ => .ok [sampleRecord], fun _ => .ok [], none⟩

/-- The end-to-end scenario's input buffer: the record object wrapped
in an array (braces written `\x7b`/`\x7d`). -/
def c4input : String :=
  "[\x7b\"leader\":\"00123nam a2200061 a 4500\",\"fields\":[\x7b\"001\":\"12345\"\x7d,\x7b\"245\":\x7b\"ind1\":\"1\",\"ind2\":\"0\",\"subfields\":[\x7b\"a\":\"Title\"\x7d]\x7d\x7d]\x7d]"

/-- The text `load_marc_file` actually produces for `c4input`: header,
the `001` control-field line, the `245` data-field line, then the
separator. -/
def c4output : String :=
  "Record ID: 12345\n001: 12345\n245  10 a Title\n\n" ++ sepLine ++ "\n"

/-- A well-formed mnemonic block (control field `001`, data field
`245`). -/
def goodBlock : String :=
  "=001  12345\n=245  10$aTitle"

/-- A malformed mnemonic block: no `=` field lines at all, so a text
reader finds no record in it. -/
def badBlock : String :=
  "no field lines here"

/-- A mnemonic buffer of two record blocks separated by a blank line,
the second malformed. -/
def inputC2 : String :=
  goodBlock ++ "\n\n" ++ badBlock

/-- The text `load_marc_file` actually produces for `inputC2`: the
first record fully rendered, the separator, and nothing at all for the
skipped second block. -/
def outputC2 : String :=
  "Record ID: 12345\n001: 12345\n245  10 a Title\n\n" ++ sepLine ++ "\n"

/-- A `TextReader` behaviour: the well-formed block parses to
`sampleRecord`; a block with no field lines yields no record, so
`next(reader)` raises `StopIteration`. -/
def trGoodBad : String → Except Exc Record :=
  fun b => if b = goodBlock then .ok sampleRecord else .error .stopIteration

/-- External behaviour with `TextReader` importable and behaving as
`trGoodBad`. -/
def envC2 : Env :=
  ⟨fun _ => .ok [], fun _ => .ok [], fun _ => .ok [], some trGoodBad⟩

/-- A `TextReader` behaviour that raises `ValueError` on every block
(for example on a malformed field line) — an exception outside the
per-block `except (StopIteration, TypeError)` clause. -/
def trValueError : String → Except Exc Record :=
  fun _ => .error .valueError

/-- External behaviour with `TextReader` importable and raising
`ValueError` on every block. -/
def envAbort : Env :=
  ⟨fun _ => .ok [], fun _ => .ok [], fun _ => .ok [], some trValueError⟩

theorem classify_eq_mnemonic_iff (content : String) :
    classify content = Format.mnemonic ↔
      (is_marcxml content = false ∧ is_json content = false ∧ is_mnemonic content = true) := by
  unfold classify
  cases hm : is_marcxml content <;> cases hj : is_json content <;>
    cases hn : is_mnemonic content <;> simp

theorem ljust4_of_len3 (tag : String) (h : tag.data.length = 3) :
    ljust4 tag = tag ++ " " := by
  unfold ljust4
  rw [h]
  exact congrArg (fun t => tag ++ t) (by decide)

theorem renderAll_none_cons (rs : List (Option Record)) :
    renderAll (none :: rs) = .error Exc.typeError := rfl

theorem renderAll_single (r : Record) :
    renderAll [some r] = .ok (renderRecord r ++ "\n" ++ sepLine ++ "\n") := by
  simp [renderAll, parse_record]

/-- Claim C1, counterexample: on the buffer `"[ not json"` the sniffer
selects the Json decoder, whose fatal whole-document syntax error
(`JSONDecodeError`, a `ValueError`) is not among the exceptions the
top-level handler catches, so the call terminates with an uncaught
exception and no output — not with a single top-level error message. -/
theorem json_syntax_error_uncaught :
    is_json "[ not json" = true ∧
    load_marc_file envJsonSyntaxError "[ not json" = .error Exc.valueError := by decide

/-- Claim C1 (amended): the top-level handler of `load_marc_file`
catches only `UnicodeDecodeError` and `IOError`.  When the body fails
with one of those (for example a failing source read), the call reports
a single top-level error message with no partial output; when it fails
with any other exception — in particular a fatal whole-document Xml/Json
syntax error — the exception propagates uncaught and the caller
receives no output at all. -/
theorem load_top_level_catch_only_read_errors (env : Env) (content : String) (e : Exc)
    (h : loadBody env content = .error e) :
    (caughtByLoad e = true → load_marc_file env content = .ok (topErrorText e)) ∧
    (caughtByLoad e = false → load_marc_file env content = .error e) := by
  constructor <;> intro hc <;> simp [load_marc_file, h, hc]

/-- Claim C1, witness: both branches of the amended claim at concrete
inputs — a failing binary read is reported as the top-level message, a
Json syntax error propagates uncaught. -/
theorem load_top_level_catch_only_read_errors_witness :
    (loadBody envReadError "x" = .error Exc.ioError ∧ caughtByLoad Exc.ioError = true ∧
     load_marc_file envReadError "x" = .ok (topErrorText Exc.ioError)) ∧
    (loadBody envJsonSyntaxError "[ not json" = .error Exc.valueError ∧
     caughtByLoad Exc.valueError = false ∧
     load_marc_file envJsonSyntaxError "[ not json" = .error Exc.valueError) :=
  ⟨⟨by decide, by decide,
    (load_top_level_catch_only_read_errors envReadError "x" Exc.ioError (by decide)).1
      (by decide)⟩,
   ⟨by decide, by decide,
    (load_top_level_catch_only_read_errors envJsonSyntaxError "[ not json" Exc.valueError
      (by decide)).2 (by decide)⟩⟩

/-- Claim C2, counterexample: for the two-block mnemonic buffer
`inputC2` with a malformed second block, the output is exactly the
rendered first record followed by the separator — it contains no inline
error marker of any kind for the second block (every error text the
program can embed begins with `"Error"`, which does not occur in the
output). -/
theorem mnemonic_bad_block_no_marker :
    load_marc_file envC2 inputC2 = .ok outputC2 ∧
    hasSub outputC2 "Error" = false ∧
    hasSub "Error parsing record: boom" "Error" = true := by decide

/-- Claim C2 (amended): for a Mnemonic input of two record blocks
separated by a blank line whose second block is malformed — its parse
raising `StopIteration` or `TypeError` — processing does not raise; the
output text contains the fully rendered first record followed by the
separator, and the malformed block is silently skipped: no inline error
marker and no output of any kind is produced for it. -/
theorem mnemonic_bad_second_block_skipped (env : Env) (tr : String → Except Exc Record)
    (content b1 b2 : String) (r1 : Record)
    (htr : env.textReader = some tr) (hc : classify content = Format.mnemonic)
    (hs : splitBlocks content = [b1, b2]) (h1 : tr b1 = .ok r1)
    (h2 : tr b2 = .error Exc.stopIteration ∨ tr b2 = .error Exc.typeError) :
    load_marc_file env content = .ok (renderRecord r1 ++ "\n" ++ sepLine ++ "\n") := by
  obtain ⟨hm, hj, hn⟩ := (classify_eq_mnemonic_iff content).mp hc
  have hloop : mnemonicLoop env [b1, b2] = .ok [some r1] := by
    rcases h2 with h2 | h2 <;>
      simp [mnemonicLoop, parse_mnemonic_record, htr, h1, h2, caughtByMnemonic]
  have hp : parse_mnemonic_records env content = .ok [some r1] := by
    simp [parse_mnemonic_records, htr, hs, hloop]
  have hd : decodeRecords env content = .ok [some r1] := by
    simp [decodeRecords, hm, hj, hn, hp]
  simp [load_marc_file, loadBody, hd, renderAll_single]

/-- Claim C2, witness: the amended claim at the concrete buffer
`inputC2` under the modelled `TextReader` behaviour. -/
theorem mnemonic_bad_second_block_skipped_witness :
    envC2.textReader = some trGoodBad ∧ classify inputC2 = Format.mnemonic ∧
    splitBlocks inputC2 = [goodBlock, badBlock] ∧
    trGoodBad goodBlock = .ok sampleRecord ∧
    trGoodBad badBlock = .error Exc.stopIteration ∧
    load_marc_file envC2 inputC2 = .ok (renderRecord sampleRecord ++ "\n" ++ sepLine ++ "\n") :=
  ⟨rfl, by decide, by decide, by decide, by decide,
    mnemonic_bad_second_block_skipped envC2 trGoodBad inputC2 goodBlock badBlock sampleRecord
      rfl (by decide) (by decide) (by decide) (Or.inl (by decide))⟩

/-- Claim C3, counterexample: for the data field `245`, indicators
`1`,`0`, one subfield `a` = `Title`, the renderer emits
`"245  10 a Title"` — tag, pad space, and a further separating space
before the indicators — which differs from the claimed layout
`"245 10 a Title"` in which the width-4 tag is immediately followed by
the indicators. -/
theorem data_field_line_extra_space :
    renderField (.data "245" "1" "0" [⟨"a", "Title"⟩]) = "245  10 a Title\n" ∧
    specDataFieldLine "245" "1" "0" [⟨"a", "Title"⟩] = "245 10 a Title" ∧
    renderField (.data "245" "1" "0" [⟨"a", "Title"⟩]) ≠
      specDataFieldLine "245" "1" "0" [⟨"a", "Title"⟩] ++ "\n" := by decide

/-- Claim C3 (amended): for every data field with the standard
3-character tag, the renderer emits the line
`"<tag><pad space><space><indicator1><indicator2> <subfields>"` — the
tag left-justified to width 4, then an additional separating space,
then the two indicator characters, then a space, then the subfields
joined by a single space, each rendered as `"<code> <value>"`, with no
other characters in the line. -/
theorem data_field_line_layout (tag i1 i2 : String) (subs : List Subfield)
    (h : tag.data.length = 3) :
    renderField (.data tag i1 i2 subs) =
      (tag ++ " ") ++ " " ++ i1 ++ i2 ++ " " ++
        joinSp (subs.map (fun sf => sf.code ++ " " ++ sf.value)) ++ "\n" := by
  simp only [renderField]
  rw [ljust4_of_len3 tag h]

/-- Claim C3, witness: the amended layout at the concrete `245` field. -/
theorem data_field_line_layout_witness :
    ("245" : String).data.length = 3 ∧
    renderField (.data "245" "1" "0" [⟨"a", "Title"⟩]) =
      ("245" ++ " ") ++ " " ++ "1" ++ "0" ++ " " ++
        joinSp (([⟨"a", "Title"⟩] : List Subfield).map (fun sf => sf.code ++ " " ++ sf.value)) ++
        "\n" :=
  ⟨by decide, data_field_line_layout "245" "1" "0" [⟨"a", "Title"⟩] (by decide)⟩

/-- Claim C4, counterexample: end-to-end processing of the scenario's
JSON document does not produce output beginning with
`"Record ID: 12345"` directly followed by the `245` line — the `001`
control-field line `"001: 12345"` stands between them. -/
theorem json_scenario_not_as_claimed :
    load_marc_file envC4 c4input = .ok c4output ∧
    pyStartsWith c4output "Record ID: 12345\n245  10 a Title" = false := by decide

/-- Claim C4 (amended): end-to-end processing of the scenario's JSON
document produces output beginning with the line `"Record ID: 12345"`,
followed by the line `"001: 12345"`, followed by the line
`"245  10 a Title"`. -/
theorem json_scenario_actual_output :
    is_json c4input = true ∧
    load_marc_file envC4 c4input = .ok c4output ∧
    pyStartsWith c4output "Record ID: 12345\n001: 12345\n245  10 a Title\n" = true := by decide

/-- Claim C5, counterexample: the empty buffer is not classified as
Unknown (no such classification exists) and no top-level decode failure
is reported: it falls through to the Binary branch, the reader yields
no records, and the processor returns ordinary empty text, which is not
the top-level error message. -/
theorem empty_buffer_not_unknown :
    classify "" = Format.binary ∧
    load_marc_file envDefault "" = .ok "" ∧
    ("" : String) ≠ topErrorText Exc.ioError := by decide

/-- Claim C5 (amended): the sniffer has no Unknown classification; the
empty buffer falls through to Binary, the binary reader yields no
records on it, and the Batch Processor returns empty text and reports
no error. -/
theorem empty_buffer_binary_empty_output (env : Env)
    (h : env.marcReaderList "" = .ok []) :
    classify "" = Format.binary ∧ load_marc_file env "" = .ok "" := by
  refine ⟨by decide, ?_⟩
  have hm : is_marcxml "" = false := by decide
  have hj : is_json "" = false := by decide
  have hn : is_mnemonic "" = false := by decide
  simp [load_marc_file, loadBody, decodeRecords, hm, hj, hn, h, renderAll]

/-- Claim C5, witness: the amended claim under standard pymarc
behaviour. -/
theorem empty_buffer_binary_empty_output_witness :
    envDefault.marcReaderList "" = .ok [] ∧
    (classify "" = Format.binary ∧ load_marc_file envDefault "" = .ok "") :=
  ⟨rfl, empty_buffer_binary_empty_output envDefault rfl⟩

/-- Claim C6, counterexample: the sniffer does not operate on the
trimmed content.  The buffer `"=abc\n"` is classified Mnemonic although
its whitespace-trimmed content `"=abc"` contains no newline — under the
claimed trimmed-content rule it would fall through to Binary. -/
theorem sniffer_uses_raw_not_trimmed :
    classify "=abc\n" = Format.mnemonic ∧
    pyContains (pyStrip "=abc\n") '\n' = false ∧
    is_marcxml "=abc\n" = false ∧ is_json "=abc\n" = false := by decide

/-- Claim C6 (amended): for every buffer on which the Xml and Json
rules do not fire, the sniffer — operating on the raw, untrimmed
buffer — classifies it as Mnemonic exactly when the raw buffer contains
a newline anywhere and contains `=` within its first 100 bytes, and
otherwise falls through to Binary. -/
theorem mnemonic_rule_on_raw_buffer (content : String)
    (hm : is_marcxml content = false) (hj : is_json content = false) :
    (classify content = Format.mnemonic ↔ is_mnemonic content = true) ∧
    (classify content = Format.binary ↔ is_mnemonic content = false) ∧
    is_mnemonic content = (pyContains content '\n' && pyContains (pyTake content 100) '=') := by
  refine ⟨?_, ?_, rfl⟩ <;> cases hn : is_mnemonic content <;> simp [classify, hm, hj, hn]

/-- Claim C6, witness: the amended rule at the concrete buffer
`"=ab\ncd"`. -/
theorem mnemonic_rule_on_raw_buffer_witness :
    is_marcxml "=ab\ncd" = false ∧ is_json "=ab\ncd" = false ∧
    ((classify "=ab\ncd" = Format.mnemonic ↔ is_mnemonic "=ab\ncd" = true) ∧
     (classify "=ab\ncd" = Format.binary ↔ is_mnemonic "=ab\ncd" = false) ∧
     is_mnemonic "=ab\ncd" =
       (pyContains "=ab\ncd" '\n' && pyContains (pyTake "=ab\ncd" 100) '=')) :=
  ⟨by decide, by decide, mnemonic_rule_on_raw_buffer "=ab\ncd" (by decide) (by decide)⟩

/-- Claim C7: every buffer whose whitespace-trimmed content begins with
`<?xml` is classified Xml, regardless of all subsequent content — the
Xml rule is the first branch of the sniffing chain, so it takes
priority over the Json, Mnemonic and Binary rules. -/
theorem xml_rule_first_priority (content : String)
    (h : pyStartsWith (pyStrip content) "<?xml" = true) :
    classify content = Format.xml := by
  have hm : is_marcxml content = true := h
  simp [classify, hm]

/-- Claim C7, witness: a buffer that also matches the Json and Mnemonic
conditions in its tail is still classified Xml. -/
theorem xml_rule_first_priority_witness :
    pyStartsWith (pyStrip " <?xml junk [=\n") "<?xml" = true ∧
    classify " <?xml junk [=\n" = Format.xml :=
  ⟨by decide, xml_rule_first_priority " <?xml junk [=\n" (by decide)⟩

/-- Claim C8: the renderer is deterministic — two invocations on equal
Records return identical text.  Side-effect freedom is captured by the
embedding: `renderRecord` is a pure function of the record alone, which
is faithful because `parse_record` only reads its argument and touches
no other state. -/
theorem render_deterministic (r₁ r₂ : Record) (h : r₁ = r₂) :
    renderRecord r₁ = renderRecord r₂ := by rw [h]

/-- Claim C8, witness: determinism at a concrete record. -/
theorem render_deterministic_witness :
    sampleRecord = sampleRecord ∧ renderRecord sampleRecord = renderRecord sampleRecord :=
  ⟨rfl, render_deterministic sampleRecord sampleRecord rfl⟩

/-- Claim C9: when the optional `TextReader` import failed, the
mnemonic fallback yields `None` in place of every record block, and
rendering the first such `None` raises a `TypeError` (from evaluating
`'001' in None`) that neither the render handler (which catches only
`KeyError` and `AttributeError`) nor the top-level handler (which
catches only `UnicodeDecodeError` and `IOError`) catches, so the whole
call aborts with no output. -/
theorem fallback_none_record_aborts (env : Env) (content b : String) (bs : List String)
    (htr : env.textReader = none) (hc : classify content = Format.mnemonic)
    (hs : splitBlocks content = b :: bs) :
    parse_mnemonic_records env content = .ok ((b :: bs).map (fun _ => none)) ∧
    load_marc_file env content = .error Exc.typeError := by
  obtain ⟨hm, hj, hn⟩ := (classify_eq_mnemonic_iff content).mp hc
  have hp : parse_mnemonic_records env content = .ok ((b :: bs).map (fun _ => none)) := by
    simp [parse_mnemonic_records, htr, parse_mnemonic_records_fallback, hs]
  refine ⟨hp, ?_⟩
  have hd : decodeRecords env content = .ok ((b :: bs).map (fun _ => none)) := by
    simp [decodeRecords, hm, hj, hn, hp]
  have hb : loadBody env content = .error Exc.typeError := by
    simp [loadBody, hd, renderAll_none_cons]
  simp [load_marc_file, hb, caughtByLoad]

/-- Claim C9, witness: the abort at the concrete mnemonic buffer
`"=a\nb"` under standard pymarc behaviour (`TextReader` absent). -/
theorem fallback_none_record_aborts_witness :
    envDefault.textReader = none ∧ classify "=a\nb" = Format.mnemonic ∧
    splitBlocks "=a\nb" = ["=a\nb"] ∧
    (parse_mnemonic_records envDefault "=a\nb" = .ok [none] ∧
     load_marc_file envDefault "=a\nb" = .error Exc.typeError) :=
  ⟨rfl, by decide, by decide,
    fallback_none_record_aborts envDefault "=a\nb" "=a\nb" [] rfl (by decide) (by decide)⟩

/-- Claim C10: the mnemonic decoder's per-block recovery is limited to
`StopIteration` and `TypeError`: a block whose parse raises one of
those two is skipped and decoding continues with the remaining blocks,
while a block whose parse raises any other exception makes that
exception propagate out of the block loop, aborting decoding of all
remaining blocks. -/
theorem mnemonic_recovery_two_exceptions_only (env : Env)
    (tr : String → Except Exc Record) (content b : String) (bs : List String) (e : Exc)
    (htr : env.textReader = some tr) (hs : splitBlocks content = b :: bs) :
    ((tr b = .error Exc.stopIteration ∨ tr b = .error Exc.typeError) →
      parse_mnemonic_records env content = mnemonicLoop env bs) ∧
    (tr b = .error e → caughtByMnemonic e = false →
      parse_mnemonic_records env content = .error e) := by
  have hp : parse_mnemonic_records env content = mnemonicLoop env (b :: bs) := by
    simp [parse_mnemonic_records, htr, hs]
  constructor
  · rw [hp]
    rintro (h | h) <;>
      simp [mnemonicLoop, parse_mnemonic_record, htr, h, caughtByMnemonic]
  · rw [hp]
    intro he hnc
    simp [mnemonicLoop, parse_mnemonic_record, htr, he, hnc]

/-- Claim C10, witness: both halves at concrete inputs — a
`StopIteration` block is skipped and the loop continues with the
remaining blocks; a `ValueError` block aborts the decode. -/
theorem mnemonic_recovery_two_exceptions_only_witness :
    (trGoodBad badBlock = .error Exc.stopIteration ∧
     parse_mnemonic_records envC2 (badBlock ++ "\n\n" ++ goodBlock) =
       mnemonicLoop envC2 [goodBlock]) ∧
    (trValueError "=x" = .error Exc.valueError ∧ caughtByMnemonic Exc.valueError = false ∧
     parse_mnemonic_records envAbort "=x\n\ny" = .error Exc.valueError) :=
  ⟨⟨by decide,
    (mnemonic_recovery_two_exceptions_only envC2 trGoodBad (badBlock ++ "\n\n" ++ goodBlock)
      badBlock [goodBlock] Exc.valueError rfl (by decide)).1 (Or.inl (by decide))⟩,
   ⟨rfl, by decide,
    (mnemonic_recovery_two_exceptions_only envAbort trValueError "=x\n\ny" "=x" ["y"]
      Exc.valueError rfl (by decide)).2 rfl (by decide)⟩⟩

end Marc
